import Mathlib

/-!
Shallow embedding of the WebAR virtual dress try-on application
(`src/WebAR/app.js`) and proofs about its spec claims.

Numbers that the JavaScript code manipulates (coordinates, confidence
scores, scale factors, alpha values) are embedded as rationals `ℚ`;
the decimal literals `0.3`, `0.8`, `1.5`, `1.8`, `0.1` are exact in `ℚ`,
matching the decimal literals of the source.  File sizes are `ℕ`.
-/

namespace WebAR

/-! ## Data model (spec §3, code lines 204-244) -/

/-- A pose keypoint as returned by the external pose model:
name, 2-D position, confidence score. -/
structure Keypoint where
  name : String
  x : ℚ
  y : ℚ
  score : ℚ
  deriving DecidableEq, Repr

/-- One detected person's keypoints (`poses[i].keypoints`). -/
abbrev Pose := List Keypoint

/-- A 2-D point (used for already-extracted keypoint coordinates). -/
structure Pt where
  x : ℚ
  y : ℚ
  deriving DecidableEq, Repr

/-- The garment placement rectangle `{x, y, width, height}` in
display-surface coordinates. -/
structure FitRect where
  x : ℚ
  y : ℚ
  width : ℚ
  height : ℚ
  deriving DecidableEq, Repr

/-! ## PoseKeypointAdapter (code lines 204-267) -/

/-- `keypoints.find(k => k.name === n)` of the source: first keypoint
whose name equals `n`, scanning left to right. -/
def findKp (p : Pose) (n : String) : Option Keypoint :=
  match p with
  | [] => none
  | k :: rest => if k.name = n then some k else findKp rest n

/-- The confidence threshold `minConfidence = 0.3` (code line 212). -/
def minConfidence : ℚ := 0.3

/-- `kp?.score > minConfidence` of the source: in JavaScript,
`undefined > 0.3` evaluates to `false`, so an absent keypoint fails
the comparison exactly like a low score. -/
def optScoreAbove (k : Option Keypoint) : Bool :=
  match k with
  | none => false
  | some kp => minConfidence < kp.score

/-- Outcome of the detection branch of the try-on handler
(code lines 204-267). `noPerson` is the status
"No person detected in the image..." (line 265), `lowConfidence` the
status "Could not detect clear body pose..." (line 261), and
`proceed` carries the four keypoints into the fitting branch. -/
inductive DetectResult where
  | noPerson
  | lowConfidence
  | proceed (ls rs lh rh : Keypoint)
  deriving DecidableEq, Repr

/-- The branch structure on the result of `detector.estimatePoses`
(code lines 204-267): zero poses → no-person status; otherwise take the
first pose, look up the four required keypoints, and run the
`kp?.score > minConfidence` conjunction — any absent keypoint or any
score not strictly above `0.3` falls into the low-confidence branch. -/
def detectBranch (poses : List Pose) : DetectResult :=
  match poses with
  | [] => DetectResult.noPerson
  | p :: _ =>
    let ls := findKp p "left_shoulder"
    let rs := findKp p "right_shoulder"
    let lh := findKp p "left_hip"
    let rh := findKp p "right_hip"
    if optScoreAbove ls && optScoreAbove rs && optScoreAbove lh && optScoreAbove rh then
      match ls, rs, lh, rh with
      | some a, some b, some c, some d => DetectResult.proceed a b c d
      | _, _, _, _ => DetectResult.lowConfidence
    else
      DetectResult.lowConfidence

/-! ## GarmentFitCalculator (code lines 221-244) -/

/-- `Math.abs` of the source, on rationals. -/
def jsAbs (q : ℚ) : ℚ := if q < 0 then -q else q

/-- The dress-fit geometry of code lines 221-244: scale the four
keypoints by `(scaleX, scaleY)`, then derive the placement rectangle
from shoulder midpoint, shoulder width and torso height with the fixed
multipliers 1.5, 1.8 and the 0.1 vertical offset.  (`torsoY` is
computed by the source but unused.) -/
def computeFit (leftShoulder rightShoulder leftHip rightHip : Pt)
    (scaleX scaleY : ℚ) : FitRect :=
  let sLS : Pt := ⟨leftShoulder.x * scaleX, leftShoulder.y * scaleY⟩
  let sRS : Pt := ⟨rightShoulder.x * scaleX, rightShoulder.y * scaleY⟩
  let sLH : Pt := ⟨leftHip.x * scaleX, leftHip.y * scaleY⟩
  let _sRH : Pt := ⟨rightHip.x * scaleX, rightHip.y * scaleY⟩
  let centerX := (sLS.x + sRS.x) / 2
  let _torsoY := (sLS.y + sLH.y) / 2
  let shoulderWidth := jsAbs (sRS.x - sLS.x)
  let torsoHeight := jsAbs (sLH.y - sLS.y)
  let dressWidth := shoulderWidth * 1.5
  let dressHeight := torsoHeight * 1.8
  let dressX := centerX - dressWidth / 2
  let dressY := sLS.y - dressHeight * 0.1
  ⟨dressX, dressY, dressWidth, dressHeight⟩

/-! ## ImageIngestion: canvas sizing (code lines 129-142) -/

/-- `maxWidth = 600` (code line 130). -/
def maxWidth : ℚ := 600

/-- `maxHeight = 800` (code line 131). -/
def maxHeight : ℚ := 800

/-- The display-dimension computation of `uploadedImage.onload`
(code lines 132-139): if either raw dimension exceeds the 600×800
bound, multiply both by `min(600/w, 800/h)`; otherwise keep them. -/
def displayDims (w h : ℚ) : ℚ × ℚ :=
  if w > maxWidth ∨ h > maxHeight then
    let scale := min (maxWidth / w) (maxHeight / h)
    (w * scale, h * scale)
  else
    (w, h)

/-! ## Session state and the event handlers

The module-level state of `app.js` (lines 12-16) plus the mutable
canvas-context compositing parameters.  The canvas pixel content is
abstracted to which draw sequence produced it; the number of pipeline
runs currently past the guard (started but not yet terminated) and the
number of `detector.estimatePoses` invocations are tracked so that
re-entrancy can be stated. -/

/-- `ctx.globalCompositeOperation`: only the two values the code uses. -/
inductive CompositeOp where
  | sourceOver
  | multiply
  deriving DecidableEq, Repr

/-- Abstracted canvas pixel content. -/
inductive CanvasContent where
  | cleared
  | baseImage
  | composited (r : FitRect)
  deriving DecidableEq, Repr

/-- Module-level mutable state of `app.js` together with the canvas
context's compositing parameters. `uploadedImageSrc` models whether
`uploadedImage.src` is a non-empty string, `detector` whether the
`detector` variable is non-null, `dressComplete` the
`dressImage.complete` flag. -/
structure AppState where
  uploadedImageSrc : Bool
  isImageUploaded : Bool
  detector : Bool
  isModelLoading : Bool
  dressComplete : Bool
  imgW : ℚ
  imgH : ℚ
  canvasW : ℚ
  canvasH : ℚ
  globalAlpha : ℚ
  compositeOp : CompositeOp
  canvas : CanvasContent
  deriving DecidableEq, Repr

/-- A session: the app state plus bookkeeping for pipeline runs.
`activeRuns` counts click-handler invocations that passed the guard and
have not yet reached their terminal outcome; `detectCalls` counts
`detector.estimatePoses` invocations. -/
structure Session where
  app : AppState
  activeRuns : ℕ
  detectCalls : ℕ
  deriving DecidableEq, Repr

/-- `updateButtonState` (code lines 39-50): the try-on button is enabled
iff the model is not loading and an image is uploaded. -/
def buttonEnabled (a : AppState) : Bool :=
  !a.isModelLoading && a.isImageUploaded

/-! ### Upload change handler (code lines 105-170) -/

/-- An uploaded file: its declared media type and byte size. -/
structure UploadFile where
  mediaType : String
  size : ℕ
  deriving DecidableEq, Repr

/-- JavaScript `s.startsWith(p)` (used as `file.type.startsWith('image/')`
at code line 109), expressed on the underlying character lists. -/
def strStartsWith (s p : String) : Bool :=
  p.data.isPrefixOf s.data

/-- Outcome of the synchronous part of the upload change handler.
`invalidType` is the status "Please select a valid image file."
(line 110), `tooLarge` the status "Image file is too large..."
(line 116), and `decodeStarted` means the handler reached
`reader.readAsDataURL(file)` so a decode is attempted. -/
inductive UploadOutcome where
  | invalidType
  | tooLarge
  | decodeStarted
  deriving DecidableEq, Repr

/-- The synchronous validation sequence of the upload handler
(code lines 109-118): type check first, then the
`file.size > 10 * 1024 * 1024` check, else the decode starts.
On both rejection branches the handler only reports a status and
returns: the session (canvas, flags) is untouched. -/
def uploadChange (s : Session) (f : UploadFile) : Session × UploadOutcome :=
  if !(strStartsWith f.mediaType "image/") then
    (s, UploadOutcome.invalidType)
  else if f.size > 10 * 1024 * 1024 then
    (s, UploadOutcome.tooLarge)
  else
    (s, UploadOutcome.decodeStarted)

/-! ### Try-on click handler (code lines 173-274) -/

/-- Outcome of the synchronous prefix of the try-on click handler.
`blockedNotReady` is the status "Please wait for the AI models to load
completely." (line 175), `blockedGarment` the status "Dress image is
still loading..." (line 180); `started` means the handler redrew the
base image and invoked `detector.estimatePoses`, suspending at the
`await`. -/
inductive ClickOutcome where
  | blockedNotReady
  | blockedGarment
  | started
  deriving DecidableEq, Repr

/-- The synchronous prefix of the try-on click handler
(code lines 174-202): the two guard checks, then (inside `try`) the
base-image redraw and the call to `detector.estimatePoses`, which
suspends the run.  Nothing in the guard consults whether another run
is outstanding. -/
def clickHandler (s : Session) : Session × ClickOutcome :=
  if !s.app.uploadedImageSrc || !s.app.detector || s.app.isModelLoading then
    (s, ClickOutcome.blockedNotReady)
  else if !s.app.dressComplete then
    (s, ClickOutcome.blockedGarment)
  else
    ({ s with
        app := { s.app with canvas := CanvasContent.baseImage },
        activeRuns := s.activeRuns + 1,
        detectCalls := s.detectCalls + 1 },
      ClickOutcome.started)

/-- Result of the awaited `detector.estimatePoses` call: either a pose
list or a rejection (which the `catch` block handles). -/
inductive DetectOutcome where
  | ok (poses : List Pose)
  | err
  deriving Repr

/-- Terminal outcome of one pipeline run. `errorCaught` is the `catch`
branch (line 268-270). -/
inductive RunOutcome where
  | fitted (r : FitRect)
  | lowConfidence
  | noPerson
  | errorCaught
  deriving DecidableEq, Repr

/-- The continuation of a suspended try-on run once `estimatePoses`
settles (code lines 204-273).  `dressDrawOk` models whether the browser
primitive `ctx.drawImage(dressImage, ...)` (line 251) returns normally
or throws (it throws, e.g., when the garment image is in the broken
state, which `dressImage.complete` does not rule out).  On the success
path the code sets `globalAlpha = 0.8` and `multiply` (lines 247-248),
draws, and then resets them (lines 254-255); if the draw throws, control
jumps to `catch`/`finally`, which only report and hide the loading
overlay — the compositing parameters are left as they were.  In every
case the run terminates (`finally`, line 271-273). -/
def resumeRun (s : Session) (det : DetectOutcome) (dressDrawOk : Bool) :
    Session × RunOutcome :=
  match det with
  | DetectOutcome.err =>
    ({ s with activeRuns := s.activeRuns - 1 }, RunOutcome.errorCaught)
  | DetectOutcome.ok poses =>
    match detectBranch poses with
    | DetectResult.noPerson =>
      ({ s with activeRuns := s.activeRuns - 1 }, RunOutcome.noPerson)
    | DetectResult.lowConfidence =>
      ({ s with activeRuns := s.activeRuns - 1 }, RunOutcome.lowConfidence)
    | DetectResult.proceed a b c d =>
      let scaleX := s.app.canvasW / s.app.imgW
      let scaleY := s.app.canvasH / s.app.imgH
      let rect := computeFit ⟨a.x, a.y⟩ ⟨b.x, b.y⟩ ⟨c.x, c.y⟩ ⟨d.x, d.y⟩
        scaleX scaleY
      if dressDrawOk then
        ({ s with
            app := { s.app with
              canvas := CanvasContent.composited rect,
              globalAlpha := 1,
              compositeOp := CompositeOp.sourceOver },
            activeRuns := s.activeRuns - 1 },
          RunOutcome.fitted rect)
      else
        ({ s with
            app := { s.app with
              globalAlpha := 0.8,
              compositeOp := CompositeOp.multiply },
            activeRuns := s.activeRuns - 1 },
          RunOutcome.errorCaught)

/-! ### Reset handler (code lines 277-294) -/

/-- The reset click handler: clears the canvas, resets the file input,
sets `isImageUploaded = false`, and replaces `uploadedImage` with a
fresh `new Image()` (empty `src`, zero dimensions).  The detector,
`isModelLoading`, the dress image and the canvas dimensions are not
touched. -/
def resetHandler (s : Session) : Session :=
  { s with
      app := { s.app with
        canvas := CanvasContent.cleared,
        isImageUploaded := false,
        uploadedImageSrc := false,
        imgW := 0,
        imgH := 0 } }

/-! ## Concrete inputs used by witnesses and counterexamples -/

/-- Left-shoulder keypoint at the reference position with a given score. -/
def kpLS (sc : ℚ) : Keypoint := ⟨"left_shoulder", 100, 50, sc⟩

/-- Right-shoulder keypoint at the reference position with a given score. -/
def kpRS (sc : ℚ) : Keypoint := ⟨"right_shoulder", 200, 50, sc⟩

/-- Left-hip keypoint at the reference position with a given score. -/
def kpLH (sc : ℚ) : Keypoint := ⟨"left_hip", 110, 250, sc⟩

/-- Right-hip keypoint at the reference position with a given score. -/
def kpRH (sc : ℚ) : Keypoint := ⟨"right_hip", 190, 250, sc⟩

/-- A pose with all four required keypoints at high confidence. -/
def goodPose : Pose := [kpLS 0.9, kpRS 0.9, kpLH 0.9, kpRH 0.9]

/-- A pose lacking the left shoulder but with the other three keypoints
at high confidence. -/
def missingShoulderPose : Pose := [kpRS 0.9, kpLH 0.9, kpRH 0.9]

/-- A pose whose left-shoulder score is exactly the 0.3 threshold. -/
def boundaryPose : Pose := [kpLS 0.3, kpRS 0.9, kpLH 0.9, kpRH 0.9]

/-- A pose whose left-shoulder score is 0.30001, just above threshold. -/
def passingPose : Pose := [kpLS 0.30001, kpRS 0.9, kpLH 0.9, kpRH 0.9]

/-- App state with every readiness condition satisfied: image uploaded
(100×200, canvas unscaled), detector created, model loaded, dress
complete, default compositing parameters. -/
def readyApp : AppState :=
  { uploadedImageSrc := true, isImageUploaded := true, detector := true,
    isModelLoading := false, dressComplete := true,
    imgW := 100, imgH := 200, canvasW := 100, canvasH := 200,
    globalAlpha := 1, compositeOp := CompositeOp.sourceOver,
    canvas := CanvasContent.baseImage }

/-- A session in which one try-on run has passed the guard and is
suspended at the `estimatePoses` await. -/
def midRunSession : Session := ⟨readyApp, 1, 1⟩

/-- App state after a failed model initialization: the `catch` branch
(code lines 85-91) clears `isModelLoading` but `detector` stays null;
an image has been uploaded. -/
def failedInitApp : AppState := { readyApp with detector := false }

/-- Session after failed model initialization and an image upload. -/
def failedInitSession : Session := ⟨failedInitApp, 0, 0⟩

/-- The initial session: nothing uploaded, model still loading. -/
def idleApp : AppState :=
  { uploadedImageSrc := false, isImageUploaded := false, detector := false,
    isModelLoading := true, dressComplete := false,
    imgW := 0, imgH := 0, canvasW := 300, canvasH := 150,
    globalAlpha := 1, compositeOp := CompositeOp.sourceOver,
    canvas := CanvasContent.cleared }

/-- The initial session wrapper. -/
def idleSession : Session := ⟨idleApp, 0, 0⟩

/-- A 12 MiB file that is not an image. -/
def bigTextFile : UploadFile := ⟨"text/plain", 12 * 1024 * 1024⟩

/-- A 12 MiB JPEG file. -/
def bigImageFile : UploadFile := ⟨"image/jpeg", 12 * 1024 * 1024⟩

/-! ## Theorems

First, discrimination lemmas for the four keypoint names, so that
`simp` can run `findKp` on concrete poses. -/

@[simp] theorem ls_ne_rs : ("left_shoulder" : String) ≠ "right_shoulder" := by decide

@[simp] theorem ls_ne_lh : ("left_shoulder" : String) ≠ "left_hip" := by decide

@[simp] theorem ls_ne_rh : ("left_shoulder" : String) ≠ "right_hip" := by decide

@[simp] theorem rs_ne_ls : ("right_shoulder" : String) ≠ "left_shoulder" := by decide

@[simp] theorem rs_ne_lh : ("right_shoulder" : String) ≠ "left_hip" := by decide

@[simp] theorem rs_ne_rh : ("right_shoulder" : String) ≠ "right_hip" := by decide

@[simp] theorem lh_ne_ls : ("left_hip" : String) ≠ "left_shoulder" := by decide

@[simp] theorem lh_ne_rs : ("left_hip" : String) ≠ "right_shoulder" := by decide

@[simp] theorem lh_ne_rh : ("left_hip" : String) ≠ "right_hip" := by decide

@[simp] theorem rh_ne_ls : ("right_hip" : String) ≠ "left_shoulder" := by decide

@[simp] theorem rh_ne_rs : ("right_hip" : String) ≠ "right_shoulder" := by decide

@[simp] theorem rh_ne_lh : ("right_hip" : String) ≠ "left_hip" := by decide

/-- Claim C4 (confirmed): `computeFit` on
`leftShoulder=(100,50)`, `rightShoulder=(200,50)`, `leftHip=(110,250)`,
`rightHip=(190,250)` with scale factors `(1,1)` yields the fit rectangle
`{x:75, y:14, width:150, height:360}`; the width is
`shoulderWidth * 1.5` with `shoulderWidth = 100`, the height is
`torsoHeight * 1.8` with `torsoHeight = 200`, and the rectangle is
horizontally centered on `centerX = 150`. -/
theorem computeFit_reference_scenario :
    computeFit ⟨100, 50⟩ ⟨200, 50⟩ ⟨110, 250⟩ ⟨190, 250⟩ 1 1 =
      ⟨75, 14, 150, 360⟩ ∧
    (computeFit ⟨100, 50⟩ ⟨200, 50⟩ ⟨110, 250⟩ ⟨190, 250⟩ 1 1).width =
      100 * 1.5 ∧
    (computeFit ⟨100, 50⟩ ⟨200, 50⟩ ⟨110, 250⟩ ⟨190, 250⟩ 1 1).height =
      200 * 1.8 ∧
    (computeFit ⟨100, 50⟩ ⟨200, 50⟩ ⟨110, 250⟩ ⟨190, 250⟩ 1 1).x +
      (computeFit ⟨100, 50⟩ ⟨200, 50⟩ ⟨110, 250⟩ ⟨190, 250⟩ 1 1).width / 2 =
      150 := by
  norm_num [computeFit, jsAbs]

/-- Claim C10 (confirmed): the reset handler clears the canvas, sets
`isImageUploaded` to false and replaces the uploaded image (empty
`src`), while leaving the detector, the model-loading flag, the garment
asset readiness and the compositing parameters unchanged, so model
readiness survives a reset. -/
theorem reset_effect (s : Session) :
    (resetHandler s).app.canvas = CanvasContent.cleared ∧
    (resetHandler s).app.isImageUploaded = false ∧
    (resetHandler s).app.uploadedImageSrc = false ∧
    (resetHandler s).app.detector = s.app.detector ∧
    (resetHandler s).app.isModelLoading = s.app.isModelLoading ∧
    (resetHandler s).app.dressComplete = s.app.dressComplete ∧
    (resetHandler s).app.globalAlpha = s.app.globalAlpha ∧
    (resetHandler s).app.compositeOp = s.app.compositeOp := by
  simp [resetHandler]

/-- Claim C9 (confirmed): whenever the detector is null (as after a
failed model initialization), a try-on trigger is rejected by the first
guard: the session — canvas content, flags, run and detect-call
counters — is unchanged and no pose-estimation call is made, whatever
the other flags (in particular with `isModelLoading` already cleared
and the button enabled). -/
theorem detector_null_click_rejected (s : Session)
    (h : s.app.detector = false) :
    clickHandler s = (s, ClickOutcome.blockedNotReady) := by
  simp [clickHandler, h]

/-- Witness for claim C9: in the concrete post-failed-initialization
session the button appears enabled, yet the click is rejected with the
session unchanged. -/
theorem detector_null_click_rejected_witness :
    buttonEnabled failedInitSession.app = true ∧
    clickHandler failedInitSession = (failedInitSession, ClickOutcome.blockedNotReady) :=
  ⟨by decide, detector_null_click_rejected failedInitSession rfl⟩

/-- Claim C2 (counterexample): a detection result with one pose whose
left shoulder is absent (the other three keypoints present at high
confidence) lands in the low-confidence branch — the status of code
line 261 — and not in the no-person branch of line 265, contrary to the
claim that a missing keypoint yields `NoPersonDetected`. -/
theorem missing_keypoint_is_lowConfidence_branch :
    detectBranch [missingShoulderPose] = DetectResult.lowConfidence ∧
    detectBranch [missingShoulderPose] ≠ DetectResult.noPerson := by
  have h : detectBranch [missingShoulderPose] = DetectResult.lowConfidence := by
    norm_num [detectBranch, missingShoulderPose, findKp, optScoreAbove,
      kpRS, kpLH, kpRH, minConfidence]
  refine ⟨h, ?_⟩
  rw [h]
  decide

/-- Claim C2 (amended): if any of the four required keypoints is missing
from the first pose, the adapter fails through the low-confidence branch
(`undefined > 0.3` is false in JavaScript), the same outcome as a present
keypoint with a low score; `NoPersonDetected` arises only for zero
poses. -/
theorem missing_keypoint_lowConfidence (p : Pose) (rest : List Pose)
    (h : findKp p "left_shoulder" = none ∨ findKp p "right_shoulder" = none ∨
         findKp p "left_hip" = none ∨ findKp p "right_hip" = none) :
    detectBranch (p :: rest) = DetectResult.lowConfidence := by
  rcases h with h | h | h | h <;> simp [detectBranch, h, optScoreAbove]

/-- Witness for claim C2 (amended): the concrete pose lacking a left
shoulder is classified `lowConfidence`. -/
theorem missing_keypoint_lowConfidence_witness :
    detectBranch [missingShoulderPose] = DetectResult.lowConfidence :=
  missing_keypoint_lowConfidence missingShoulderPose [] (Or.inl (by decide))

/-- Claim C3 (confirmed): with all four required keypoints present in
the first pose, the adapter fails with the low-confidence outcome iff at
least one of the four scores is ≤ 0.3 (so a score of exactly 0.3 fails),
and if all four scores are strictly above 0.3 the adapter proceeds with
exactly those four keypoints. -/
theorem confidence_gate_strict (p : Pose) (rest : List Pose)
    (a b c d : Keypoint)
    (hls : findKp p "left_shoulder" = some a)
    (hrs : findKp p "right_shoulder" = some b)
    (hlh : findKp p "left_hip" = some c)
    (hrh : findKp p "right_hip" = some d) :
    (detectBranch (p :: rest) = DetectResult.lowConfidence ↔
      (a.score ≤ minConfidence ∨ b.score ≤ minConfidence ∨
       c.score ≤ minConfidence ∨ d.score ≤ minConfidence)) ∧
    ((minConfidence < a.score ∧ minConfidence < b.score ∧
      minConfidence < c.score ∧ minConfidence < d.score) →
      detectBranch (p :: rest) = DetectResult.proceed a b c d) := by
  by_cases ha : minConfidence < a.score <;>
  by_cases hb : minConfidence < b.score <;>
  by_cases hc : minConfidence < c.score <;>
  by_cases hd : minConfidence < d.score <;>
  simp [detectBranch, hls, hrs, hlh, hrh, optScoreAbove, ← not_lt,
    ha, hb, hc, hd]

/-- Witness for claim C3: with the left-shoulder score exactly 0.3 the
gate fails (boundary is exclusive); with 0.30001 it passes and the
adapter proceeds. -/
theorem confidence_gate_strict_witness :
    detectBranch [boundaryPose] = DetectResult.lowConfidence ∧
    detectBranch [passingPose] =
      DetectResult.proceed (kpLS 0.30001) (kpRS 0.9) (kpLH 0.9) (kpRH 0.9) := by
  constructor
  · exact (confidence_gate_strict boundaryPose []
      (kpLS 0.3) (kpRS 0.9) (kpLH 0.9) (kpRH 0.9) rfl rfl rfl rfl).1.mpr
      (Or.inl (by norm_num [kpLS, minConfidence]))
  · exact (confidence_gate_strict passingPose []
      (kpLS 0.30001) (kpRS 0.9) (kpLH 0.9) (kpRH 0.9) rfl rfl rfl rfl).2
      (by norm_num [kpLS, kpRS, kpLH, kpRH, minConfidence])

/-- Claim C5 (confirmed): for positive raw dimensions, if the image fits
the 600×800 bound the display dimensions are unchanged; if either
dimension exceeds the bound, both are multiplied by
`min(600/w, 800/h)`, and the result fits the bound and preserves the
aspect ratio (`w' * h = h' * w`). -/
theorem displayDims_spec (w h : ℚ) (hw : 0 < w) (hh : 0 < h) :
    (w ≤ maxWidth ∧ h ≤ maxHeight → displayDims w h = (w, h)) ∧
    (maxWidth < w ∨ maxHeight < h →
      displayDims w h =
        (w * min (maxWidth / w) (maxHeight / h),
         h * min (maxWidth / w) (maxHeight / h)) ∧
      (displayDims w h).1 ≤ maxWidth ∧
      (displayDims w h).2 ≤ maxHeight ∧
      (displayDims w h).1 * h = (displayDims w h).2 * w) := by
  constructor
  · rintro ⟨h1, h2⟩
    have hcond : ¬ (w > maxWidth ∨ h > maxHeight) := by
      push_neg
      exact ⟨h1, h2⟩
    simp [displayDims, hcond]
  · intro hcase
    have he : displayDims w h =
        (w * min (maxWidth / w) (maxHeight / h),
         h * min (maxWidth / w) (maxHeight / h)) := by
      simp [displayDims, hcase]
    refine ⟨he, ?_, ?_, ?_⟩
    · rw [he]
      show w * min (maxWidth / w) (maxHeight / h) ≤ maxWidth
      calc w * min (maxWidth / w) (maxHeight / h) ≤ w * (maxWidth / w) :=
            mul_le_mul_of_nonneg_left (min_le_left _ _) hw.le
        _ = maxWidth := by field_simp
    · rw [he]
      show h * min (maxWidth / w) (maxHeight / h) ≤ maxHeight
      calc h * min (maxWidth / w) (maxHeight / h) ≤ h * (maxHeight / h) :=
            mul_le_mul_of_nonneg_left (min_le_right _ _) hh.le
        _ = maxHeight := by field_simp
    · rw [he]
      show w * min (maxWidth / w) (maxHeight / h) * h =
        h * min (maxWidth / w) (maxHeight / h) * w
      ring

/-- Witness for claim C5: a 300×400 image is kept as is; a 1200×800
image is scaled by `min(1/2, 1)` to 600×400. -/
theorem displayDims_spec_witness :
    displayDims 300 400 = (300, 400) ∧ displayDims 1200 800 = (600, 400) := by
  constructor
  · exact (displayDims_spec 300 400 (by norm_num) (by norm_num)).1
      (by norm_num [maxWidth, maxHeight])
  · have h2 := (displayDims_spec 1200 800 (by norm_num) (by norm_num)).2
      (Or.inl (by norm_num [maxWidth]))
    rw [h2.1]
    norm_num [maxWidth, maxHeight, min_def]

/-- Claim C1 (counterexample): in the concrete session where one try-on
run has passed the guard and is suspended at the pose-detection await,
a second try-on trigger is not rejected: it passes the guard, starts a
second run (two active runs) and issues a second `estimatePoses` call. -/
theorem tryOn_reentrant_trigger_not_rejected :
    (clickHandler midRunSession).2 = ClickOutcome.started ∧
    (clickHandler midRunSession).1.activeRuns = 2 ∧
    (clickHandler midRunSession).1.detectCalls = 2 := by
  decide

/-- Claim C1 (amended): the handler maintains no processing flag; the
try-on guard consults only the readiness flags (image src set, detector
non-null, model not loading, dress complete), so whenever those hold a
trigger starts a pipeline run — incrementing the active-run and
detect-call counters — regardless of how many runs are outstanding. -/
theorem tryOn_guard_ignores_active_runs (s : Session)
    (h1 : s.app.uploadedImageSrc = true) (h2 : s.app.detector = true)
    (h3 : s.app.isModelLoading = false) (h4 : s.app.dressComplete = true) :
    (clickHandler s).2 = ClickOutcome.started ∧
    (clickHandler s).1.activeRuns = s.activeRuns + 1 ∧
    (clickHandler s).1.detectCalls = s.detectCalls + 1 := by
  simp [clickHandler, h1, h2, h3, h4]

/-- Witness for claim C1 (amended): applied in the mid-run session. -/
theorem tryOn_guard_ignores_active_runs_witness :
    (clickHandler midRunSession).2 = ClickOutcome.started ∧
    (clickHandler midRunSession).1.activeRuns = midRunSession.activeRuns + 1 ∧
    (clickHandler midRunSession).1.detectCalls = midRunSession.detectCalls + 1 :=
  tryOn_guard_ignores_active_runs midRunSession rfl rfl rfl rfl

/-- Claim C6 (counterexample): a try-on trigger starts the pipeline in a
session that is already processing (one active run), refuting the
`¬processing` conjunct of the claimed guard. -/
theorem tryOn_starts_while_processing :
    0 < midRunSession.activeRuns ∧
    (clickHandler midRunSession).2 = ClickOutcome.started := by
  decide

/-- Claim C6 (amended): a try-on trigger starts the pipeline iff the
uploaded image's src is set, the detector is non-null, the model is not
loading and the dress image is complete — there is no `¬processing`
conjunct; when this guard fails the action leaves the session (canvas
content included) unchanged, apart from reporting why it is blocked. -/
theorem tryOn_start_iff_readiness (s : Session) :
    ((clickHandler s).2 = ClickOutcome.started ↔
      s.app.uploadedImageSrc = true ∧ s.app.detector = true ∧
      s.app.isModelLoading = false ∧ s.app.dressComplete = true) ∧
    ((clickHandler s).2 ≠ ClickOutcome.started → (clickHandler s).1 = s) := by
  cases h1 : s.app.uploadedImageSrc <;>
  cases h2 : s.app.detector <;>
  cases h3 : s.app.isModelLoading <;>
  cases h4 : s.app.dressComplete <;>
  simp [clickHandler, h1, h2, h3, h4]

/-- Witness for claim C6 (amended): in the initial session (nothing
uploaded, model loading) the trigger is blocked and the session is
unchanged. -/
theorem tryOn_start_iff_readiness_witness :
    (clickHandler idleSession).1 = idleSession :=
  (tryOn_start_iff_readiness idleSession).2 (by decide)

/-- Claim C7 (counterexample): a run that begins compositing (detection
proceeded, alpha 0.8 and multiply set) but whose garment draw throws
terminates with `globalAlpha = 0.8` and blend mode `multiply` — the
parameters are not restored on that error path. -/
theorem composite_not_restored_on_draw_error :
    detectBranch [goodPose] =
      DetectResult.proceed (kpLS 0.9) (kpRS 0.9) (kpLH 0.9) (kpRH 0.9) ∧
    (resumeRun midRunSession (DetectOutcome.ok [goodPose]) false).1.app.globalAlpha
      = 0.8 ∧
    (resumeRun midRunSession (DetectOutcome.ok [goodPose]) false).1.app.compositeOp
      = CompositeOp.multiply := by
  refine ⟨?_, ?_, ?_⟩ <;>
    norm_num [resumeRun, detectBranch, goodPose, findKp, optScoreAbove,
      kpLS, kpRS, kpLH, kpRH, minConfidence]

/-- Claim C7 (amended): when a run begins compositing, the parameters
are restored to alpha 1.0 and normal blend mode on the success path
(the restore statements immediately follow the garment draw inside the
`try` block); but if the garment draw itself throws, the `catch` and
`finally` blocks restore nothing and the run terminates with alpha 0.8
and multiply still set. -/
theorem composite_restore_paths (s : Session) (poses : List Pose)
    (a b c d : Keypoint)
    (hp : detectBranch poses = DetectResult.proceed a b c d) :
    ((resumeRun s (DetectOutcome.ok poses) true).1.app.globalAlpha = 1 ∧
     (resumeRun s (DetectOutcome.ok poses) true).1.app.compositeOp =
       CompositeOp.sourceOver) ∧
    ((resumeRun s (DetectOutcome.ok poses) false).1.app.globalAlpha = 0.8 ∧
     (resumeRun s (DetectOutcome.ok poses) false).1.app.compositeOp =
       CompositeOp.multiply) := by
  simp [resumeRun, hp]

/-- Witness for claim C7 (amended): applied in the mid-run session on
the high-confidence pose. -/
theorem composite_restore_paths_witness :
    ((resumeRun midRunSession (DetectOutcome.ok [goodPose]) true).1.app.globalAlpha
        = 1 ∧
     (resumeRun midRunSession (DetectOutcome.ok [goodPose]) true).1.app.compositeOp
        = CompositeOp.sourceOver) ∧
    ((resumeRun midRunSession (DetectOutcome.ok [goodPose]) false).1.app.globalAlpha
        = 0.8 ∧
     (resumeRun midRunSession (DetectOutcome.ok [goodPose]) false).1.app.compositeOp
        = CompositeOp.multiply) :=
  composite_restore_paths midRunSession [goodPose]
    (kpLS 0.9) (kpRS 0.9) (kpLH 0.9) (kpRH 0.9)
    (by norm_num [detectBranch, goodPose, findKp, optScoreAbove,
      kpLS, kpRS, kpLH, kpRH, minConfidence])

/-- Claim C8 (counterexample): a 12 MiB file whose media type is not an
image is rejected by the earlier type check with the invalid-type
outcome, not with the too-large outcome, although its size exceeds
10 MiB. -/
theorem oversized_nonimage_not_tooLarge :
    bigTextFile.size > 10 * 1024 * 1024 ∧
    (uploadChange idleSession bigTextFile).2 = UploadOutcome.invalidType ∧
    (uploadChange idleSession bigTextFile).2 ≠ UploadOutcome.tooLarge := by
  decide

/-- Claim C8 (amended): every uploaded file with an image media type
whose byte size exceeds 10 MiB is rejected with the too-large outcome:
no decode is started and the session — canvas and `isImageUploaded`
included — is unchanged.  (A non-image oversized file is rejected by
the preceding type check instead.) -/
theorem image_file_too_large_rejected (s : Session) (f : UploadFile)
    (ht : strStartsWith f.mediaType "image/" = true)
    (hs : f.size > 10 * 1024 * 1024) :
    uploadChange s f = (s, UploadOutcome.tooLarge) := by
  simp [uploadChange, ht, hs]

/-- Witness for claim C8 (amended): a 12 MiB JPEG in the idle session. -/
theorem image_file_too_large_rejected_witness :
    uploadChange idleSession bigImageFile = (idleSession, UploadOutcome.tooLarge) :=
  image_file_too_large_rejected idleSession bigImageFile (by decide) (by decide)

end WebAR
